import Mathlib

/-!
Shallow embedding of the clip-merge pipeline of `src/App.tsx` (crip-merger).

The component under study is the `startProcessing` async function together
with its helpers (`getSupportedMimeType`, the `mediaRecorder.onstop`
handler, the per-clip promise executor) and the `ProcessStatus` state it
publishes through `setStatus` / `setDownloadUrl` / `setFinalMimeType`.

Modelling choices (all taken from the source, not from the spec):

* Host behaviour that the code merely reacts to is collected in an
  environment `Env`: the selected clip list (already filtered and sorted by
  `handleFolderSelect`), how each playback session settles
  (`ClipBehavior`), the value of `processingRef.current` read at each loop
  boundary (`cancelledAt`), the answers of
  `MediaRecorder.isTypeSupported`, and the data chunks the recorder
  delivered through `ondataavailable` before `stop()`.
* The cooperative, callback-driven control flow of one clip is sequential
  in the browser because the orchestrator awaits each clip promise before
  building the next video element; the model therefore threads state
  through a structurally recursive loop `runClips` and records each
  observable step in an event trace.
* `ClipBehavior` enumerates the settlement paths of the per-clip promise
  executor in the source: natural end of playback (`video.onended`),
  rejection of `video.play()` inside `oncanplay` (an `Error` object), and a
  media error (`video.onerror`, which rejects with a plain template
  string).  `audioConnectFails` is whether
  `audioCtx.createMediaElementSource` / `connect` threw in the
  `try/catch` that only logs a warning.
* `mediaRecorder.onstop` fires on a later task of the event loop than the
  synchronous code that called `stop()`; its state updates are therefore
  applied after those of the calling code, which the model reflects by
  ordering.
* `Math.round((i / N) * 100)` is modelled as exact round-half-up on the
  rational 100·i/N (floating point noise at non-representable halfway
  points is below the granularity of the claims).
* The pre-loop host steps (AudioContext construction, canvas 2d context,
  MediaRecorder construction) are modelled as succeeding; the hidden
  canvas element is always mounted, so `canvasRef.current` is present.
-/

namespace ClipMerger

/-- The four values of `ProcessStatus.state` in App.tsx. -/
inductive Phase where
  | idle
  | processing
  | completed
  | error
deriving DecidableEq, Repr

/-- The `ProcessStatus` record published through `setStatus`. -/
structure ProcessStatus where
  state : Phase
  message : String
  progress : Nat
deriving DecidableEq, Repr

/-- One entry of the clip list: a `File` with its display name and the
native resolution (`videoWidth` times `videoHeight`) its metadata reports. -/
structure ClipDesc where
  name : String
  width : Nat
  height : Nat
deriving DecidableEq, Repr

/-- A JavaScript value passed to `reject`: either an `Error` object
carrying a `.message`, or a plain string (`video.onerror` rejects with the
template string built from the file name, which has no `.message`). -/
inductive RejectValue where
  | jsError (message : String)
  | jsString (s : String)
deriving DecidableEq, Repr

/-- How one clip playback session settles, as dictated by the host:
`success` is the `video.onended` path; `playFail` is `video.play()`
rejecting inside `oncanplay` with an `Error` whose message is
`errMessage`; `mediaError` is `video.onerror`, with `metadataLoads`
telling whether `onloadedmetadata` had fired before the error.
`audioConnectFails` is whether creating/connecting the audio source threw. -/
inductive ClipBehavior where
  | success (audioConnectFails : Bool)
  | playFail (audioConnectFails : Bool) (errMessage : String)
  | mediaError (metadataLoads : Bool)
deriving DecidableEq, Repr

/-- Observable events of one run, in program order. -/
inductive Event where
  | statusUpdate (s : ProcessStatus)
  | recorderCreated
  | recorderStarted
  | sessionCreated (i : Nat)
  | dimsAssigned (i : Nat) (w h : Nat)
  | audioConnected (i : Nat)
  | audioConnectFailed (i : Nat)
  | playStarted (i : Nat)
  | cleanupRun (i : Nat)
  | sessionResolved (i : Nat)
  | sessionRejected (i : Nat) (v : RejectValue)
  | recorderStopped
  | downloadUrlSet
deriving DecidableEq, Repr

/-- Settlement of the per-clip promise awaited by the loop. -/
inductive SessionOutcome where
  | resolved
  | rejected (v : RejectValue)
deriving DecidableEq, Repr

/-- The `video.onloadedmetadata` handler: the first time it runs
(`dimensionsSet` still false, modelled as `dims = none`) it copies the
clip resolution onto the canvas and sets the flag; afterwards it does
nothing. -/
def applyMetadata (i : Nat) (c : ClipDesc) (dims : Option (Nat × Nat)) :
    Option (Nat × Nat) × List Event :=
  match dims with
  | none => (some (c.width, c.height), [Event.dimsAssigned i c.width c.height])
  | some d => (some d, [])

/-- One clip playback session (the promise executor of App.tsx lines
149-223) under behaviour `b`, with the canvas dimension state threaded
through.  On every settlement path `cleanup()` runs before the promise
settles, matching the source. -/
def runSession (i : Nat) (c : ClipDesc) (b : ClipBehavior)
    (dims : Option (Nat × Nat)) :
    SessionOutcome × Option (Nat × Nat) × List Event :=
  match b with
  | .success af =>
      let m := applyMetadata i c dims
      let aev := if af then [Event.audioConnectFailed i] else [Event.audioConnected i]
      (.resolved, m.1,
        Event.sessionCreated i :: m.2 ++ aev ++
          [Event.playStarted i, Event.cleanupRun i, Event.sessionResolved i])
  | .playFail af msg =>
      let m := applyMetadata i c dims
      let aev := if af then [Event.audioConnectFailed i] else [Event.audioConnected i]
      (.rejected (.jsError msg), m.1,
        Event.sessionCreated i :: m.2 ++ aev ++
          [Event.cleanupRun i, Event.sessionRejected i (.jsError msg)])
  | .mediaError ml =>
      let m := if ml then applyMetadata i c dims else (dims, [])
      let v := RejectValue.jsString ("Error playing file " ++ c.name)
      (.rejected v, m.1,
        Event.sessionCreated i :: m.2 ++ [Event.cleanupRun i, Event.sessionRejected i v])

/-- `Math.round((i / N) * 100)` as exact round-half-up on 100·i/N. -/
def jsRound100 (i N : Nat) : Nat := (i * 200 + N) / (N * 2)

/-- The status published at the start boundary of clip `i` (0-based) of
`N`, App.tsx lines 143-147. -/
def clipStartStatus (i N : Nat) (name : String) : ProcessStatus :=
  { state := .processing
    message := "Processing clip " ++ toString (i + 1) ++ "/" ++ toString N ++ ": " ++ name
    progress := jsRound100 i N }

/-- How the sequential for-loop exited. -/
inductive LoopExit where
  | finished
  | cancelled (atClip : Nat)
  | failed (i : Nat) (v : RejectValue)
deriving DecidableEq, Repr

/-- The sequential processing loop (App.tsx lines 139-224): at each index
check `processingRef.current` (break when cleared), publish the clip-start
status, await the session; a rejection propagates out (to the catch). -/
def runClips (behavior : Nat → ClipBehavior) (cancelledAt : Nat → Bool) (N : Nat) :
    Nat → List ClipDesc → Option (Nat × Nat) →
    LoopExit × Option (Nat × Nat) × List Event
  | _, [], dims => (.finished, dims, [])
  | i, c :: rest, dims =>
      if cancelledAt i then (.cancelled i, dims, [])
      else
        let s := runSession i c (behavior i) dims
        match s.1 with
        | .resolved =>
            let t := runClips behavior cancelledAt N (i + 1) rest s.2.1
            (t.1, t.2.1, Event.statusUpdate (clipStartStatus i N c.name) :: s.2.2 ++ t.2.2)
        | .rejected v =>
            (.failed i v, s.2.1, Event.statusUpdate (clipStartStatus i N c.name) :: s.2.2)

/-- The environment a run unfolds in (host behaviour plus selected input). -/
structure Env where
  clips : List ClipDesc
  behavior : Nat → ClipBehavior
  cancelledAt : Nat → Bool
  isTypeSupported : String → Bool
  chunks : List Nat

/-- The blob assembled by the `onstop` handler: the recorded chunks with
the negotiated MIME type. -/
structure Artifact where
  chunks : List Nat
  mimeType : String
deriving DecidableEq, Repr

/-- The React state App.tsx keeps about a run. -/
structure AppState where
  status : ProcessStatus
  downloadUrl : Option Artifact
  finalMimeType : String
  processing : Bool
deriving DecidableEq, Repr

/-- App state before anything happened. -/
def initialState : AppState :=
  { status := { state := .idle, message := "", progress := 0 }
    downloadUrl := none
    finalMimeType := ""
    processing := false }

/-- App.tsx line 24. -/
def PREFERRED_FORMAT : String := "video/mp4; codecs=\"avc1.42E01E, mp4a.40.2\""

/-- App.tsx line 25. -/
def FALLBACK_FORMAT : String := "video/webm; codecs=\"vp8, opus\""

/-- `getSupportedMimeType` (App.tsx lines 62-70), parameterised by the
answers of `MediaRecorder.isTypeSupported`. -/
def getSupportedMimeType (isTypeSupported : String → Bool) : String :=
  if isTypeSupported PREFERRED_FORMAT then PREFERRED_FORMAT
  else if isTypeSupported "video/mp4" then "video/mp4"
  else FALLBACK_FORMAT

/-- The `.message` property of a rejected value: present on an `Error`
object, absent (`undefined`) on a plain string. -/
def jsMessageField : RejectValue → Option String
  | .jsError m => some m
  | .jsString _ => none

/-- The message the catch block builds (App.tsx line 233):
`Error: ` followed by `error.message || 'Unknown error'`.  An absent
`.message`, or an empty one (falsy in JavaScript), yields the default. -/
def catchMessage (v : RejectValue) : String :=
  "Error: " ++
    match jsMessageField v with
    | some m => if m = "" then "Unknown error" else m
    | none => "Unknown error"

/-- The status set by the `onstop` handler (App.tsx line 127). -/
def completedStatus : ProcessStatus :=
  { state := .completed, message := "Processing complete!", progress := 100 }

/-- The status set at the top of `startProcessing` (App.tsx line 76). -/
def initializingStatus : ProcessStatus :=
  { state := .processing, message := "Initializing processing engine...", progress := 0 }

/-- Calling `mediaRecorder.stop()` on an active recorder and running the
`onstop` handler (App.tsx lines 123-132), which unconditionally assembles
the chunks into a blob, sets the download URL and publishes
`completedStatus` whatever the state was when `stop()` was called. -/
def fireStop (chunks : List Nat) (mime : String) (st : AppState) : AppState × List Event :=
  ({ st with
      downloadUrl := some { chunks := chunks, mimeType := mime }
      status := completedStatus
      processing := false },
   [Event.recorderStopped, Event.downloadUrlSet, Event.statusUpdate completedStatus])

/-- What happens after the loop exits.  A rejection lands in the catch
block (App.tsx lines 231-238): publish the error status, clear the
processing flag, then stop the still-recording recorder, whose `onstop`
handler runs afterwards.  A normal or cancelled exit stops the recorder
directly (lines 227-229). -/
def finishRun (chunks : List Nat) (mime : String) (st : AppState) :
    LoopExit → AppState × List Event
  | .failed _ v =>
      let errStatus : ProcessStatus :=
        { state := .error, message := catchMessage v, progress := 0 }
      let r := fireStop chunks mime { st with status := errStatus, processing := false }
      (r.1, Event.statusUpdate errStatus :: r.2)
  | .finished => fireStop chunks mime st
  | .cancelled _ => fireStop chunks mime st

/-- The whole of `startProcessing` (App.tsx lines 72-239) as a function of
the environment and the app state when the button was pressed, returning
the final app state and the event trace. -/
def startProcessing (env : Env) (st0 : AppState) : AppState × List Event :=
  if env.clips.length = 0 then (st0, [])
  else
    let mime := getSupportedMimeType env.isTypeSupported
    let st1 := { st0 with
                  processing := true
                  status := initializingStatus
                  finalMimeType := mime }
    let initEv := [Event.statusUpdate initializingStatus,
                   Event.recorderCreated, Event.recorderStarted]
    let l := runClips env.behavior env.cancelledAt env.clips.length 0 env.clips none
    let r := finishRun env.chunks mime st1 l.1
    (r.1, initEv ++ l.2.2 ++ r.2)

/-! ## Observation helpers over traces -/

/-- Whether an event is a canvas dimension assignment. -/
def isDimsAssigned : Event → Bool
  | .dimsAssigned _ _ _ => true
  | _ => false

/-- The dimension assignments contained in a trace. -/
def dimsEvents (tr : List Event) : List Event := tr.filter isDimsAssigned

/-- Whether `onloadedmetadata` fires before the session settles. -/
def metadataLoads : ClipBehavior → Bool
  | .success _ => true
  | .playFail _ _ => true
  | .mediaError ml => ml

/-- Whether the session promise resolves. -/
def resolves : ClipBehavior → Bool
  | .success _ => true
  | _ => false

/-- Projection of a trace onto the session lifecycle marks: creation (0),
teardown (1) and settlement (2) of session `i`. -/
def sessionMarks (tr : List Event) : List (Nat × Nat) :=
  tr.filterMap fun e =>
    match e with
    | .sessionCreated i => some (0, i)
    | .cleanupRun i => some (1, i)
    | .sessionResolved i => some (2, i)
    | .sessionRejected i _ => some (2, i)
    | _ => none

/-- Whether an event publishes a status in phase `error`. -/
def isErrorStatus : Event → Bool
  | .statusUpdate ⟨.error, _, _⟩ => true
  | _ => false

/-- Whether an event creates a session with index at least `k`. -/
def isSessionCreatedGe (k : Nat) : Event → Bool
  | .sessionCreated i => decide (k ≤ i)
  | _ => false

/-- The fixed order in which `getSupportedMimeType` prefers output types. -/
def preferenceList : List String := [PREFERRED_FORMAT, "video/mp4", FALLBACK_FORMAT]

/-- Flip the audio-connect outcome of a behaviour to `f`, leaving the
settlement path untouched. -/
def setAudioFail (f : Bool) : ClipBehavior → ClipBehavior
  | .success _ => .success f
  | .playFail _ m => .playFail f m
  | .mediaError ml => .mediaError ml

/-! ## Concrete environments used as inputs of the claims -/

/-- Two clips, the second of which hits a media error after the first
succeeded; no cancellation, every format supported, one recorded chunk. -/
def failSecondEnv : Env :=
  { clips := [⟨"a.mp4", 640, 480⟩, ⟨"b.mp4", 640, 480⟩]
    behavior := fun i => if i = 0 then .success false else .mediaError true
    cancelledAt := fun _ => false
    isTypeSupported := fun _ => true
    chunks := [1] }

/-- An empty clip list. -/
def emptyEnv : Env :=
  { clips := []
    behavior := fun _ => .success false
    cancelledAt := fun _ => false
    isTypeSupported := fun _ => true
    chunks := [] }

/-- A single clip whose media errors out. -/
def failFirstEnv : Env :=
  { clips := [⟨"a.mp4", 640, 480⟩]
    behavior := fun _ => .mediaError true
    cancelledAt := fun _ => false
    isTypeSupported := fun _ => true
    chunks := [] }

/-- Three clips that all succeed; no cancellation. -/
def threeClipEnv : Env :=
  { clips := [⟨"a.mp4", 640, 480⟩, ⟨"b.mp4", 320, 240⟩, ⟨"c.mp4", 1280, 720⟩]
    behavior := fun _ => .success false
    cancelledAt := fun _ => false
    isTypeSupported := fun _ => true
    chunks := [7] }

/-- Three clips that would all succeed, but the cancellation flag is
cleared between clip 0 and clip 1. -/
def cancelAfterFirstEnv : Env :=
  { clips := [⟨"a.mp4", 640, 480⟩, ⟨"b.mp4", 320, 240⟩, ⟨"c.mp4", 1280, 720⟩]
    behavior := fun _ => .success false
    cancelledAt := fun j => decide (1 ≤ j)
    isTypeSupported := fun _ => true
    chunks := [3, 4] }

/-! ## Session-level lemmas -/

/-- Every settlement path of a session marks creation, teardown and
settlement, in this order, and nothing else. -/
theorem sessionMarks_runSession (i : Nat) (c : ClipDesc) (b : ClipBehavior)
    (dims : Option (Nat × Nat)) :
    sessionMarks (runSession i c b dims).2.2 = [(0, i), (1, i), (2, i)] := by
  cases b with
  | success af =>
      cases dims <;> cases af <;> simp [runSession, applyMetadata, sessionMarks]
  | playFail af m =>
      cases dims <;> cases af <;> simp [runSession, applyMetadata, sessionMarks]
  | mediaError ml =>
      cases dims <;> cases ml <;> simp [runSession, applyMetadata, sessionMarks]

/-- Once the canvas dimensions are set, a session leaves them untouched
and emits no dimension assignment. -/
theorem runSession_dims_frozen (i : Nat) (c : ClipDesc) (b : ClipBehavior)
    (d : Nat × Nat) :
    (runSession i c b (some d)).2.1 = some d ∧
      dimsEvents (runSession i c b (some d)).2.2 = [] := by
  cases b with
  | success af =>
      cases af <;> simp [runSession, applyMetadata, dimsEvents, isDimsAssigned]
  | playFail af m =>
      cases af <;> simp [runSession, applyMetadata, dimsEvents, isDimsAssigned]
  | mediaError ml =>
      cases ml <;> simp [runSession, applyMetadata, dimsEvents, isDimsAssigned]

/-- A session trace publishes no status at all, hence no error status, and
creates no session other than its own. -/
theorem runSession_events_local (i : Nat) (c : ClipDesc) (b : ClipBehavior)
    (dims : Option (Nat × Nat)) (k : Nat) (hik : i < k) :
    (runSession i c b dims).2.2.filter isErrorStatus = [] ∧
      (runSession i c b dims).2.2.filter (isSessionCreatedGe k) = [] := by
  have hk : ¬ k ≤ i := Nat.not_le_of_gt hik
  cases b with
  | success af =>
      cases dims <;> cases af <;>
        simp [runSession, applyMetadata, isErrorStatus, isSessionCreatedGe, hk]
  | playFail af m =>
      cases dims <;> cases af <;>
        simp [runSession, applyMetadata, isErrorStatus, isSessionCreatedGe, hk]
  | mediaError ml =>
      cases dims <;> cases ml <;>
        simp [runSession, applyMetadata, isErrorStatus, isSessionCreatedGe, hk]

/-- The outcome and the dimension handling of a session do not depend on
whether its audio connection failed. -/
theorem runSession_audio_irrelevant (i : Nat) (c : ClipDesc) (f : Bool)
    (b : ClipBehavior) (dims : Option (Nat × Nat)) :
    (runSession i c (setAudioFail f b) dims).1 = (runSession i c b dims).1 ∧
      (runSession i c (setAudioFail f b) dims).2.1 = (runSession i c b dims).2.1 := by
  cases b <;> simp [runSession, setAudioFail]

/-! ## Loop-level step equations -/

/-- Loop step when the cancellation flag was cleared before clip `k`. -/
theorem runClips_cancel_step (b : Nat → ClipBehavior) (cl : Nat → Bool) (N k : Nat)
    (c : ClipDesc) (rest : List ClipDesc) (d : Option (Nat × Nat)) (h : cl k = true) :
    runClips b cl N k (c :: rest) d = (.cancelled k, d, []) := by
  simp [runClips, h]

/-- Loop step when clip `k` runs and its session resolves. -/
theorem runClips_resolved_step (b : Nat → ClipBehavior) (cl : Nat → Bool) (N k : Nat)
    (c : ClipDesc) (rest : List ClipDesc) (d : Option (Nat × Nat))
    (h : cl k = false) (hr : (runSession k c (b k) d).1 = .resolved) :
    runClips b cl N k (c :: rest) d =
      ((runClips b cl N (k + 1) rest (runSession k c (b k) d).2.1).1,
       (runClips b cl N (k + 1) rest (runSession k c (b k) d).2.1).2.1,
       Event.statusUpdate (clipStartStatus k N c.name) ::
         (runSession k c (b k) d).2.2 ++
           (runClips b cl N (k + 1) rest (runSession k c (b k) d).2.1).2.2) := by
  simp only [runClips, h, Bool.false_eq_true, if_false]
  rw [hr]

/-- Loop step when clip `k` runs and its session rejects. -/
theorem runClips_rejected_step (b : Nat → ClipBehavior) (cl : Nat → Bool) (N k : Nat)
    (c : ClipDesc) (rest : List ClipDesc) (d : Option (Nat × Nat)) (v : RejectValue)
    (h : cl k = false) (hr : (runSession k c (b k) d).1 = .rejected v) :
    runClips b cl N k (c :: rest) d =
      (.failed k v, (runSession k c (b k) d).2.1,
       Event.statusUpdate (clipStartStatus k N c.name) :: (runSession k c (b k) d).2.2) := by
  simp only [runClips, h, Bool.false_eq_true, if_false]
  rw [hr]

/-- Trace component of a resolved loop step. -/
theorem runClips_resolved_trace (b : Nat → ClipBehavior) (cl : Nat → Bool) (N k : Nat)
    (c : ClipDesc) (rest : List ClipDesc) (d : Option (Nat × Nat))
    (h : cl k = false) (hr : (runSession k c (b k) d).1 = .resolved) :
    (runClips b cl N k (c :: rest) d).2.2 =
      Event.statusUpdate (clipStartStatus k N c.name) ::
        (runSession k c (b k) d).2.2 ++
          (runClips b cl N (k + 1) rest (runSession k c (b k) d).2.1).2.2 := by
  rw [runClips_resolved_step b cl N k c rest d h hr]

/-- Exit component of a resolved loop step. -/
theorem runClips_resolved_exit (b : Nat → ClipBehavior) (cl : Nat → Bool) (N k : Nat)
    (c : ClipDesc) (rest : List ClipDesc) (d : Option (Nat × Nat))
    (h : cl k = false) (hr : (runSession k c (b k) d).1 = .resolved) :
    (runClips b cl N k (c :: rest) d).1 =
      (runClips b cl N (k + 1) rest (runSession k c (b k) d).2.1).1 := by
  rw [runClips_resolved_step b cl N k c rest d h hr]

/-- Trace component of a rejected loop step. -/
theorem runClips_rejected_trace (b : Nat → ClipBehavior) (cl : Nat → Bool) (N k : Nat)
    (c : ClipDesc) (rest : List ClipDesc) (d : Option (Nat × Nat)) (v : RejectValue)
    (h : cl k = false) (hr : (runSession k c (b k) d).1 = .rejected v) :
    (runClips b cl N k (c :: rest) d).2.2 =
      Event.statusUpdate (clipStartStatus k N c.name) :: (runSession k c (b k) d).2.2 := by
  rw [runClips_rejected_step b cl N k c rest d v h hr]

/-- A behaviour satisfying `resolves` makes its session resolve. -/
theorem runSession_resolves (i : Nat) (c : ClipDesc) (b : ClipBehavior)
    (d : Option (Nat × Nat)) (h : resolves b = true) :
    (runSession i c b d).1 = .resolved := by
  cases b <;> simp_all [runSession, resolves]

/-- Status updates carry no dimension assignment. -/
theorem dimsEvents_cons_status (s : ProcessStatus) (l : List Event) :
    dimsEvents (Event.statusUpdate s :: l) = dimsEvents l := by
  simp [dimsEvents, List.filter_cons, isDimsAssigned]

/-- `dimsEvents` distributes over append. -/
theorem dimsEvents_append (l₁ l₂ : List Event) :
    dimsEvents (l₁ ++ l₂) = dimsEvents l₁ ++ dimsEvents l₂ := by
  simp [dimsEvents, List.filter_append]

/-- Once the dimensions are set, no later loop iteration assigns them. -/
theorem runClips_dims_frozen (b : Nat → ClipBehavior) (cl : Nat → Bool) (N : Nat) :
    ∀ (l : List ClipDesc) (k : Nat) (d : Nat × Nat),
      dimsEvents (runClips b cl N k l (some d)).2.2 = [] := by
  intro l
  induction l with
  | nil => intro k d; simp [runClips, dimsEvents]
  | cons c rest ih =>
      intro k d
      obtain ⟨h1, h2⟩ := runSession_dims_frozen k c (b k) d
      by_cases h : cl k = true
      · rw [runClips_cancel_step b cl N k c rest (some d) h]
        simp [dimsEvents]
      · rw [Bool.not_eq_true] at h
        cases hout : (runSession k c (b k) (some d)).1 with
        | resolved =>
            rw [runClips_resolved_trace b cl N k c rest (some d) h hout,
                h1, dimsEvents_append, dimsEvents_cons_status, h2, ih (k + 1) d]
            rfl
        | rejected v =>
            rw [runClips_rejected_trace b cl N k c rest (some d) v h hout,
                dimsEvents_cons_status, h2]

/-- `sessionMarks` distributes over append. -/
theorem sessionMarks_append (l₁ l₂ : List Event) :
    sessionMarks (l₁ ++ l₂) = sessionMarks l₁ ++ sessionMarks l₂ := by
  simp [sessionMarks, List.filterMap_append]

/-- Status updates carry no session lifecycle mark. -/
theorem sessionMarks_cons_status (s : ProcessStatus) (l : List Event) :
    sessionMarks (Event.statusUpdate s :: l) = sessionMarks l := by
  simp [sessionMarks, List.filterMap_cons]

/-- The loop trace marks a contiguous run of sessions `k, k+1, ...`, each
created, torn down and settled, in this order, before the next begins. -/
theorem runClips_marks (b : Nat → ClipBehavior) (cl : Nat → Bool) (N : Nat) :
    ∀ (l : List ClipDesc) (k : Nat) (d : Option (Nat × Nat)),
      ∃ m, m ≤ l.length ∧
        sessionMarks (runClips b cl N k l d).2.2 =
          (List.range' k m).flatMap fun i => [(0, i), (1, i), (2, i)] := by
  intro l
  induction l with
  | nil =>
      intro k d
      exact ⟨0, Nat.le_refl 0, by simp [runClips, sessionMarks]⟩
  | cons c rest ih =>
      intro k d
      by_cases h : cl k = true
      · refine ⟨0, Nat.zero_le _, ?_⟩
        rw [runClips_cancel_step b cl N k c rest d h]
        simp [sessionMarks]
      · rw [Bool.not_eq_true] at h
        cases hout : (runSession k c (b k) d).1 with
        | resolved =>
            obtain ⟨m, hm, hmarks⟩ := ih (k + 1) (runSession k c (b k) d).2.1
            refine ⟨m + 1, by simpa using Nat.succ_le_succ hm, ?_⟩
            rw [runClips_resolved_trace b cl N k c rest d h hout,
                sessionMarks_append, sessionMarks_cons_status,
                sessionMarks_runSession, hmarks, List.range'_succ]
            simp [List.flatMap_cons]
        | rejected v =>
            refine ⟨1, by simp, ?_⟩
            rw [runClips_rejected_trace b cl N k c rest d v h hout,
                sessionMarks_cons_status, sessionMarks_runSession]
            simp [List.range', List.flatMap_cons]

/-- Filtering error statuses past a non-error status update. -/
theorem filter_cons_status_err (s : ProcessStatus) (l : List Event)
    (hs : s.state ≠ Phase.error) :
    (Event.statusUpdate s :: l).filter isErrorStatus = l.filter isErrorStatus := by
  rcases s with ⟨st, m, p⟩
  cases st <;> simp_all [List.filter_cons, isErrorStatus]

/-- Status updates never create sessions. -/
theorem filter_cons_status_ge (s : ProcessStatus) (l : List Event) (k : Nat) :
    (Event.statusUpdate s :: l).filter (isSessionCreatedGe k) =
      l.filter (isSessionCreatedGe k) := by
  simp [List.filter_cons, isSessionCreatedGe]

/-- If the flag is cleared at boundary `k` and every earlier clip neither
cancels nor fails, the loop exits with a clean `cancelled k`: no session
with index at least `k` is created and no error status is published. -/
theorem runClips_cancelled_spec (b : Nat → ClipBehavior) (cl : Nat → Bool) (N : Nat) :
    ∀ (l : List ClipDesc) (k0 : Nat) (d : Option (Nat × Nat)) (k : Nat),
      k0 ≤ k → k < k0 + l.length → cl k = true →
      (∀ j, k0 ≤ j → j < k → cl j = false ∧ resolves (b j) = true) →
      (runClips b cl N k0 l d).1 = .cancelled k ∧
        (runClips b cl N k0 l d).2.2.filter (isSessionCreatedGe k) = [] ∧
        (runClips b cl N k0 l d).2.2.filter isErrorStatus = [] := by
  intro l
  induction l with
  | nil =>
      intro k0 d k h1 h2 _ _
      exact absurd h2 (by simp; omega)
  | cons c rest ih =>
      intro k0 d k h1 h2 hk hpre
      by_cases h0 : cl k0 = true
      · have hk0 : k0 = k := by
          by_contra hne
          have hlt : k0 < k := Nat.lt_of_le_of_ne h1 hne
          exact absurd ((hpre k0 (Nat.le_refl k0) hlt).1) (by simp [h0])
        subst hk0
        rw [runClips_cancel_step b cl N k0 c rest d h0]
        exact ⟨rfl, rfl, rfl⟩
      · rw [Bool.not_eq_true] at h0
        have hlt : k0 < k := by
          rcases Nat.lt_or_ge k0 k with h | h
          · exact h
          · have : k0 = k := Nat.le_antisymm h1 h
            rw [this] at h0
            rw [h0] at hk
            exact absurd hk (by simp)
        have hres : resolves (b k0) = true := (hpre k0 (Nat.le_refl k0) hlt).2
        have hout := runSession_resolves k0 c (b k0) d hres
        obtain ⟨he, hf1, hf2⟩ := ih (k0 + 1) (runSession k0 c (b k0) d).2.1 k hlt
          (by simpa [Nat.add_right_comm] using h2)
          hk
          (fun j hj1 hj2 => hpre j (Nat.le_of_succ_le hj1) hj2)
        obtain ⟨hs1, hs2⟩ := runSession_events_local k0 c (b k0) d k hlt
        refine ⟨?_, ?_, ?_⟩
        · rw [runClips_resolved_exit b cl N k0 c rest d h0 hout]
          exact he
        · rw [runClips_resolved_trace b cl N k0 c rest d h0 hout,
              List.filter_append, filter_cons_status_ge, hs2, hf1]
          rfl
        · rw [runClips_resolved_trace b cl N k0 c rest d h0 hout,
              List.filter_append,
              filter_cons_status_err _ _ (by simp [clipStartStatus]),
              hs1, hf2]
          rfl

/-- If neither cancellation nor failure occurs before clip `i`, the loop
publishes the start-boundary status of clip `i`. -/
theorem runClips_reaches (b : Nat → ClipBehavior) (cl : Nat → Bool) (N : Nat) :
    ∀ (l : List ClipDesc) (k0 : Nat) (d : Option (Nat × Nat)) (i : Nat) (hi : i < l.length),
      (∀ j, k0 ≤ j → j ≤ k0 + i → cl j = false) →
      (∀ j, k0 ≤ j → j < k0 + i → resolves (b j) = true) →
      Event.statusUpdate (clipStartStatus (k0 + i) N (l.get ⟨i, hi⟩).name)
        ∈ (runClips b cl N k0 l d).2.2 := by
  intro l
  induction l with
  | nil => intro k0 d i hi; exact absurd hi (by simp)
  | cons c rest ih =>
      intro k0 d i hi hc hb
      have h0 : cl k0 = false := hc k0 (Nat.le_refl k0) (Nat.le_add_right k0 i)
      cases i with
      | zero =>
          cases hout : (runSession k0 c (b k0) d).1 with
          | resolved =>
              rw [runClips_resolved_trace b cl N k0 c rest d h0 hout]
              simp
          | rejected v =>
              rw [runClips_rejected_trace b cl N k0 c rest d v h0 hout]
              simp
      | succ i' =>
          have hres : resolves (b k0) = true := hb k0 (Nat.le_refl k0) (by omega)
          have hout := runSession_resolves k0 c (b k0) d hres
          rw [runClips_resolved_trace b cl N k0 c rest d h0 hout]
          have heq : k0 + (i' + 1) = (k0 + 1) + i' := by omega
          rw [heq]
          have hmem := ih (k0 + 1) (runSession k0 c (b k0) d).2.1 i'
            (by simpa using Nat.lt_of_succ_lt_succ hi)
            (fun j hj1 hj2 => hc j (Nat.le_of_succ_le hj1) (by omega))
            (fun j hj1 hj2 => hb j (Nat.le_of_succ_le hj1) (by omega))
          exact List.mem_append_right _ hmem

/-- The loop exit and the final canvas dimensions do not depend on which
audio connections failed. -/
theorem runClips_audio_irrelevant (b : Nat → ClipBehavior) (flags : Nat → Bool)
    (cl : Nat → Bool) (N : Nat) :
    ∀ (l : List ClipDesc) (k : Nat) (d : Option (Nat × Nat)),
      (runClips (fun j => setAudioFail (flags j) (b j)) cl N k l d).1 =
          (runClips b cl N k l d).1 ∧
        (runClips (fun j => setAudioFail (flags j) (b j)) cl N k l d).2.1 =
          (runClips b cl N k l d).2.1 := by
  intro l
  induction l with
  | nil => intro k d; exact ⟨rfl, rfl⟩
  | cons c rest ih =>
      intro k d
      by_cases h : cl k = true
      · rw [runClips_cancel_step _ cl N k c rest d h, runClips_cancel_step b cl N k c rest d h]
        exact ⟨rfl, rfl⟩
      · rw [Bool.not_eq_true] at h
        obtain ⟨ho, hd⟩ := runSession_audio_irrelevant k c (flags k) (b k) d
        cases hout : (runSession k c (b k) d).1 with
        | resolved =>
            have hout2 : (runSession k c (setAudioFail (flags k) (b k)) d).1 = .resolved := by
              rw [ho, hout]
            rw [runClips_resolved_step b cl N k c rest d h hout]
            rw [runClips_resolved_step (fun j => setAudioFail (flags j) (b j)) cl N k c rest d h hout2]
            simp only []
            rw [hd]
            exact ⟨(ih (k + 1) (runSession k c (b k) d).2.1).1,
                   (ih (k + 1) (runSession k c (b k) d).2.1).2⟩
        | rejected v =>
            have hout2 : (runSession k c (setAudioFail (flags k) (b k)) d).1 = .rejected v := by
              rw [ho, hout]
            rw [runClips_rejected_step b cl N k c rest d v h hout]
            rw [runClips_rejected_step (fun j => setAudioFail (flags j) (b j)) cl N k c rest d v h hout2]
            exact ⟨rfl, hd⟩

/-- Trace decomposition of a run over a non-empty clip list. -/
theorem startProcessing_trace (env : Env) (st0 : AppState) (h : ¬ env.clips.length = 0) :
    (startProcessing env st0).2 =
      [Event.statusUpdate initializingStatus, Event.recorderCreated, Event.recorderStarted] ++
        (runClips env.behavior env.cancelledAt env.clips.length 0 env.clips none).2.2 ++
        (finishRun env.chunks (getSupportedMimeType env.isTypeSupported)
          { st0 with
              processing := true
              status := initializingStatus
              finalMimeType := getSupportedMimeType env.isTypeSupported }
          (runClips env.behavior env.cancelledAt env.clips.length 0 env.clips none).1).2 := by
  simp [startProcessing, h]

/-- Final-state decomposition of a run over a non-empty clip list. -/
theorem startProcessing_state (env : Env) (st0 : AppState) (h : ¬ env.clips.length = 0) :
    (startProcessing env st0).1 =
      (finishRun env.chunks (getSupportedMimeType env.isTypeSupported)
        { st0 with
            processing := true
            status := initializingStatus
            finalMimeType := getSupportedMimeType env.isTypeSupported }
        (runClips env.behavior env.cancelledAt env.clips.length 0 env.clips none).1).1 := by
  simp [startProcessing, h]

/-- The post-loop events assign no dimensions. -/
theorem dimsEvents_finishRun (chunks : List Nat) (mime : String) (st : AppState) (ex : LoopExit) :
    dimsEvents (finishRun chunks mime st ex).2 = [] := by
  cases ex <;> simp [finishRun, fireStop, dimsEvents, isDimsAssigned]

/-- The post-loop events carry no session lifecycle mark. -/
theorem sessionMarks_finishRun (chunks : List Nat) (mime : String) (st : AppState) (ex : LoopExit) :
    sessionMarks (finishRun chunks mime st ex).2 = [] := by
  cases ex <;> simp [finishRun, fireStop, sessionMarks]

/-- A cancelled exit goes straight to the recorder stop. -/
theorem finishRun_cancelled (chunks : List Nat) (mime : String) (st : AppState) (k : Nat) :
    finishRun chunks mime st (.cancelled k) =
      ({ st with
          downloadUrl := some { chunks := chunks, mimeType := mime }
          status := completedStatus
          processing := false },
       [Event.recorderStopped, Event.downloadUrlSet, Event.statusUpdate completedStatus]) := rfl

/-- A session that sees unset dimensions and whose metadata loads assigns
them, once, from the native resolution of its own clip. -/
theorem runSession_dims_first (i : Nat) (c : ClipDesc) (b : ClipBehavior)
    (hm : metadataLoads b = true) :
    (runSession i c b none).2.1 = some (c.width, c.height) ∧
      dimsEvents (runSession i c b none).2.2 = [Event.dimsAssigned i c.width c.height] := by
  cases b with
  | success af =>
      cases af <;> simp [runSession, applyMetadata, dimsEvents, isDimsAssigned]
  | playFail af m =>
      cases af <;> simp [runSession, applyMetadata, dimsEvents, isDimsAssigned]
  | mediaError ml =>
      cases ml <;> simp_all [runSession, applyMetadata, dimsEvents, isDimsAssigned, metadataLoads]

/-! ## Claims -/

/-- C1.  The claim says: when some clip fails after all earlier ones
succeeded, the run ends in phase `error`, no download URL is ever set, and
the final state is never `completed`.  The code violates this: the catch
block publishes the error status but then stops the recorder, and the
unconditional `onstop` handler sets the download URL and overwrites the
status with `completed`.  At the two-clip input where clip 0 succeeds and
clip 1 hits a media error, the final state is `completed` with an artifact
set, the error status having been only transient. -/
theorem c1_failed_run_still_completes_with_artifact :
    (startProcessing failSecondEnv initialState).1.status.state = Phase.completed ∧
      (startProcessing failSecondEnv initialState).1.downloadUrl
          = some { chunks := [1], mimeType := PREFERRED_FORMAT } ∧
      Event.sessionResolved 0 ∈ (startProcessing failSecondEnv initialState).2 ∧
      Event.sessionRejected 1 (RejectValue.jsString "Error playing file b.mp4")
          ∈ (startProcessing failSecondEnv initialState).2 ∧
      Event.statusUpdate { state := .error, message := "Error: Unknown error", progress := 0 }
          ∈ (startProcessing failSecondEnv initialState).2 := by decide

/-- C2, counterexample.  The claim says `startProcessing` on an empty clip
list immediately transitions to phase `error` with a no-clips message.  In
the code the guard `files.length === 0` simply returns: the state is left
exactly as it was (here `idle`, not `error`) and nothing is observable. -/
theorem c2_empty_run_no_error_transition :
    (startProcessing emptyEnv initialState).1 = initialState ∧
      (startProcessing emptyEnv initialState).1.status.state ≠ Phase.error ∧
      (startProcessing emptyEnv initialState).2 = [] := by decide

/-- C2, amended.  On an empty clip list `startProcessing` returns
immediately with the app state unchanged and an empty trace: in
particular no status transition of any kind and no recorder created or
started. -/
theorem c2_empty_run_is_noop (b : Nat → ClipBehavior) (cl : Nat → Bool)
    (sup : String → Bool) (ch : List Nat) (st : AppState) :
    startProcessing
        { clips := [], behavior := b, cancelledAt := cl,
          isTypeSupported := sup, chunks := ch } st = (st, []) := rfl

/-- C3.  The claim says the error status message contains the failing clip
name and the underlying cause.  The code builds the rejection string
`Error playing file a.mp4`, but the catch block reads `.message` on it (a
string has none), so the only error status ever published is
`Error: Unknown error`, which does not contain the clip name. -/
theorem c3_error_message_loses_clip_name :
    Event.sessionRejected 0 (RejectValue.jsString "Error playing file a.mp4")
        ∈ (startProcessing failFirstEnv initialState).2 ∧
      (startProcessing failFirstEnv initialState).2.filter isErrorStatus
          = [Event.statusUpdate
              { state := .error, message := "Error: Unknown error", progress := 0 }] ∧
      ¬ List.IsInfix "a.mp4".toList "Error: Unknown error".toList := by decide

/-- C4, counterexample.  The claim says the progress published at clip i's
start boundary is `floor(i / N * 100)`.  The code uses `Math.round`: at
clip index 2 of 3 it publishes 67, while the floor is 66; the status
carrying the floored value never appears in the trace. -/
theorem c4_progress_is_rounded_not_floored :
    Event.statusUpdate (clipStartStatus 2 3 "c.mp4")
        ∈ (startProcessing threeClipEnv initialState).2 ∧
      (clipStartStatus 2 3 "c.mp4").progress = 67 ∧
      2 * 100 / 3 = 66 ∧
      Event.statusUpdate
          { state := .processing
            message := "Processing clip 3/3: c.mp4"
            progress := 2 * 100 / 3 }
        ∉ (startProcessing threeClipEnv initialState).2 := by decide

/-- C4, amended.  If the loop reaches clip `i` (no cancellation up to and
including boundary `i`, all earlier sessions resolved), the status
published at clip i's start boundary carries progress
`round(i / N * 100)` rounding half up, i.e. `(i * 200 + N) / (2 * N)` in
integer arithmetic, and the message naming clip `i`. -/
theorem c4_progress_round_half_up (env : Env) (i : Nat) (hi : i < env.clips.length)
    (hc : ∀ j, j ≤ i → env.cancelledAt j = false)
    (hb : ∀ j, j < i → resolves (env.behavior j) = true) :
    Event.statusUpdate
        { state := .processing
          message := "Processing clip " ++ toString (i + 1) ++ "/" ++
            toString env.clips.length ++ ": " ++ (env.clips.get ⟨i, hi⟩).name
          progress := (i * 200 + env.clips.length) / (env.clips.length * 2) }
      ∈ (startProcessing env initialState).2 := by
  have hne : ¬ env.clips.length = 0 := by omega
  have hmem := runClips_reaches env.behavior env.cancelledAt env.clips.length
    env.clips 0 none i hi
    (fun j _ hj => hc j (by omega))
    (fun j _ hj => hb j (by omega))
  rw [startProcessing_trace env initialState hne]
  simp only [Nat.zero_add] at hmem
  exact List.mem_append_left _ (List.mem_append_right _ hmem)

/-- C4, witness: the amended statement at the three-clip environment,
clip index 2, where the published progress is 403 / 6 = 67. -/
theorem c4_progress_round_half_up_witness :
    (2 < threeClipEnv.clips.length) ∧
      Event.statusUpdate
          { state := .processing
            message := "Processing clip 3/3: c.mp4"
            progress := (2 * 200 + threeClipEnv.clips.length) /
              (threeClipEnv.clips.length * 2) }
        ∈ (startProcessing threeClipEnv initialState).2 :=
  ⟨by decide,
   c4_progress_round_half_up threeClipEnv 2 (by decide) (by decide) (by decide)⟩

/-- C5.  `getSupportedMimeType` returns the first entry of the fixed
preference list (combined H.264+AAC string, bare `video/mp4`, WebM
fallback) that the runtime reports supported, and the fallback when none
is supported; in every capability environment it returns a member of the
list and never fails. -/
theorem c5_format_negotiator_first_supported (sup : String → Bool) :
    getSupportedMimeType sup = (preferenceList.find? sup).getD FALLBACK_FORMAT ∧
      getSupportedMimeType sup ∈ preferenceList := by
  cases h1 : sup PREFERRED_FORMAT <;> cases h2 : sup "video/mp4" <;>
    cases h3 : sup FALLBACK_FORMAT <;>
      simp [getSupportedMimeType, preferenceList, List.find?, h1, h2, h3]

/-- C6.  Over a non-empty clip list whose run is not cancelled before clip
0 and whose first clip's metadata loads, the canvas dimensions are
assigned exactly once in the whole run, from the first clip's native
resolution, and never changed by any later clip. -/
theorem c6_dims_set_once_from_first_clip (env : Env) (c0 : ClipDesc)
    (rest : List ClipDesc) (hclips : env.clips = c0 :: rest)
    (hmeta : metadataLoads (env.behavior 0) = true)
    (hcancel : env.cancelledAt 0 = false) :
    dimsEvents (startProcessing env initialState).2 =
      [Event.dimsAssigned 0 c0.width c0.height] := by
  have hne : ¬ env.clips.length = 0 := by rw [hclips]; simp
  rw [startProcessing_trace env initialState hne, dimsEvents_append, dimsEvents_append,
      dimsEvents_finishRun]
  have hinit :
      dimsEvents [Event.statusUpdate initializingStatus, Event.recorderCreated,
        Event.recorderStarted] = [] := rfl
  rw [hinit]
  obtain ⟨hd1, hd2⟩ := runSession_dims_first 0 c0 (env.behavior 0) hmeta
  rw [hclips]
  cases hout : (runSession 0 c0 (env.behavior 0) none).1 with
  | resolved =>
      rw [runClips_resolved_trace env.behavior env.cancelledAt (c0 :: rest).length 0 c0 rest
            none hcancel hout,
          dimsEvents_append, dimsEvents_cons_status, hd2, hd1,
          runClips_dims_frozen env.behavior env.cancelledAt (c0 :: rest).length rest 1
            (c0.width, c0.height)]
      rfl
  | rejected v =>
      rw [runClips_rejected_trace env.behavior env.cancelledAt (c0 :: rest).length 0 c0 rest
            none v hcancel hout,
          dimsEvents_cons_status, hd2]
      rfl

/-- C6, witness: in the three-clip environment (whose clips have three
different native resolutions) only the 640 by 480 resolution of clip 0 is
ever assigned. -/
theorem c6_dims_set_once_from_first_clip_witness :
    threeClipEnv.clips =
        ⟨"a.mp4", 640, 480⟩ :: [⟨"b.mp4", 320, 240⟩, ⟨"c.mp4", 1280, 720⟩] ∧
      metadataLoads (threeClipEnv.behavior 0) = true ∧
      threeClipEnv.cancelledAt 0 = false ∧
      dimsEvents (startProcessing threeClipEnv initialState).2 =
        [Event.dimsAssigned 0 640 480] :=
  ⟨rfl, rfl, rfl,
   c6_dims_set_once_from_first_clip threeClipEnv ⟨"a.mp4", 640, 480⟩
     [⟨"b.mp4", 320, 240⟩, ⟨"c.mp4", 1280, 720⟩] rfl rfl rfl⟩

/-- C7.  In every environment the run trace, projected onto session
creation (0), teardown (1) and settlement (2) marks, is exactly the
pattern of some initial segment of clip indices `0, ..., k-1` in clip-list
order, each session created, torn down and settled before the next one is
created: clips are processed in list order, one session in flight at a
time, and session `i+1` is not created until session `i` has settled and
its teardown has run. -/
theorem c7_sessions_sequential_in_order (env : Env) :
    ∃ k, k ≤ env.clips.length ∧
      sessionMarks (startProcessing env initialState).2 =
        (List.range k).flatMap fun i => [(0, i), (1, i), (2, i)] := by
  by_cases h : env.clips.length = 0
  · refine ⟨0, by omega, ?_⟩
    simp [startProcessing, h, sessionMarks]
  · obtain ⟨m, hm, hmarks⟩ :=
      runClips_marks env.behavior env.cancelledAt env.clips.length env.clips 0 none
    refine ⟨m, hm, ?_⟩
    rw [startProcessing_trace env initialState h, sessionMarks_append, sessionMarks_append,
        sessionMarks_finishRun, hmarks, List.range_eq_range']
    simp [sessionMarks]

/-- C8.  If the cancellation flag is cleared at boundary `k` while every
earlier boundary was uncancelled and every earlier session resolved, then
no session with index at least `k` is ever created, no error status is
ever published (a clean early stop), and the recorder is still stopped
after the loop exits. -/
theorem c8_cancel_stops_cleanly (env : Env) (k : Nat) (hk : k < env.clips.length)
    (hcanc : env.cancelledAt k = true)
    (hbefore : ∀ j, j < k → env.cancelledAt j = false ∧ resolves (env.behavior j) = true) :
    (startProcessing env initialState).2.filter (isSessionCreatedGe k) = [] ∧
      (startProcessing env initialState).2.filter isErrorStatus = [] ∧
      Event.recorderStopped ∈ (startProcessing env initialState).2 := by
  have hne : ¬ env.clips.length = 0 := by omega
  obtain ⟨he, hf1, hf2⟩ := runClips_cancelled_spec env.behavior env.cancelledAt
    env.clips.length env.clips 0 none k (Nat.zero_le k) (by omega) hcanc
    (fun j _ hj => hbefore j hj)
  rw [startProcessing_trace env initialState hne, he, finishRun_cancelled]
  refine ⟨?_, ?_, ?_⟩
  · rw [List.filter_append, List.filter_append, hf1]
    have h1 : List.filter (isSessionCreatedGe k)
        [Event.statusUpdate initializingStatus, Event.recorderCreated,
          Event.recorderStarted] = [] := rfl
    have h2 : List.filter (isSessionCreatedGe k)
        [Event.recorderStopped, Event.downloadUrlSet,
          Event.statusUpdate completedStatus] = [] := rfl
    rw [h1, h2]
    rfl
  · rw [List.filter_append, List.filter_append, hf2]
    rfl
  · exact List.mem_append_right _ (by simp)

/-- C8, witness: cancelling between clip 0 and clip 1 of the three-clip
environment creates no session past index 0, publishes no error, and
still stops the recorder. -/
theorem c8_cancel_stops_cleanly_witness :
    (1 < cancelAfterFirstEnv.clips.length) ∧
      cancelAfterFirstEnv.cancelledAt 1 = true ∧
      ((startProcessing cancelAfterFirstEnv initialState).2.filter
          (isSessionCreatedGe 1) = [] ∧
        (startProcessing cancelAfterFirstEnv initialState).2.filter isErrorStatus = [] ∧
        Event.recorderStopped ∈ (startProcessing cancelAfterFirstEnv initialState).2) :=
  ⟨by decide, by decide,
   c8_cancel_stops_cleanly cancelAfterFirstEnv 1 (by decide) (by decide) (by decide)⟩

/-- C9.  An audio-connect failure is recorded (the warning event appears in
the session trace), the session still resolves, and the final app state of
any run is unchanged under an arbitrary reassignment of which clips'
audio connections fail: an audio-connect failure alone never makes a
session reject or a run end in `error`. -/
theorem c9_audio_failure_video_only (env : Env) (flags : Nat → Bool) (st : AppState)
    (i : Nat) (c : ClipDesc) (d : Option (Nat × Nat)) :
    (startProcessing
          { env with behavior := fun j => setAudioFail (flags j) (env.behavior j) } st).1
        = (startProcessing env st).1 ∧
      (runSession i c (.success true) d).1 = SessionOutcome.resolved ∧
      Event.audioConnectFailed i ∈ (runSession i c (.success true) d).2.2 := by
  refine ⟨?_, ?_, ?_⟩
  · by_cases h : env.clips.length = 0
    · simp [startProcessing, h]
    · have h' : ¬ ({ env with
          behavior := fun j => setAudioFail (flags j) (env.behavior j) } : Env).clips.length
            = 0 := h
      rw [startProcessing_state _ st h', startProcessing_state env st h]
      have hx := (runClips_audio_irrelevant env.behavior flags env.cancelledAt
        env.clips.length env.clips 0 none).1
      dsimp only
      rw [hx]
  · cases d <;> simp [runSession, applyMetadata]
  · cases d <;> simp [runSession, applyMetadata]

/-- C10.  A run cancelled at boundary `k` (after `k` successfully played
clips, including `k = 0`) still ends in phase `completed` with progress
100 and the download URL set to the artifact assembled from the chunks
recorded so far: there is no distinct cancelled terminal state, because
the unconditional `onstop` handler runs after the loop breaks. -/
theorem c10_cancelled_run_completes (env : Env) (st : AppState) (k : Nat)
    (hk : k < env.clips.length) (hcanc : env.cancelledAt k = true)
    (hbefore : ∀ j, j < k → env.cancelledAt j = false ∧ resolves (env.behavior j) = true) :
    (startProcessing env st).1.status = completedStatus ∧
      (startProcessing env st).1.downloadUrl =
        some { chunks := env.chunks,
               mimeType := getSupportedMimeType env.isTypeSupported } := by
  have hne : ¬ env.clips.length = 0 := by omega
  obtain ⟨he, _, _⟩ := runClips_cancelled_spec env.behavior env.cancelledAt
    env.clips.length env.clips 0 none k (Nat.zero_le k) (by omega) hcanc
    (fun j _ hj => hbefore j hj)
  rw [startProcessing_state env st hne, he, finishRun_cancelled]
  exact ⟨rfl, rfl⟩

/-- C10, witness: the cancelled three-clip run ends completed, progress
100, with the artifact assembled from the two chunks recorded so far. -/
theorem c10_cancelled_run_completes_witness :
    (1 < cancelAfterFirstEnv.clips.length) ∧
      cancelAfterFirstEnv.cancelledAt 1 = true ∧
      ((startProcessing cancelAfterFirstEnv initialState).1.status = completedStatus ∧
        (startProcessing cancelAfterFirstEnv initialState).1.downloadUrl =
          some { chunks := cancelAfterFirstEnv.chunks,
                 mimeType := getSupportedMimeType cancelAfterFirstEnv.isTypeSupported }) :=
  ⟨by decide, by decide,
   c10_cancelled_run_completes cancelAfterFirstEnv initialState 1 (by decide) (by decide)
     (by decide)⟩

end ClipMerger
